import Mathlib

/-!
Verification of the automerge excerpt: the auto-transaction wrapper
(`src/automerge/src/autocommit.rs`) and the observer/patch subsystem
(`src/automerge/src/op_observer.rs`), over a shallow embedding.

The inner `Automerge` document engine (history DAG, operation application,
sync) is not part of the excerpted source; where a claim depends on it, the
corresponding definition is modelled from the specification and its doc
comment starts with "Modelled from the spec:".

Rust methods taking `&mut self` are embedded as state transformers
`AutoCommit → α × AutoCommit`; methods taking `&self` are embedded as pure
functions of the state (the shared borrow cannot change the handle), with
explicit state-passing wrappers (`...Call`) used to phrase frame properties.
-/

/-- Actor identifiers; opaque per-replica ids, modelled as naturals. -/
abbrev ActorId := Nat

/-- External ids (stable handles to objects/operations), modelled as naturals. -/
abbrev ExId := Nat

/-- Change hashes (content addresses of changes), modelled as naturals. -/
abbrev ChangeHash := Nat

/-- A `Prop` in the source: a map key (string) or a list index. The Lean name
avoids the reserved word `Prop`. -/
inductive AmProp where
  | mapKey (s : String)
  | index (n : Nat)
deriving DecidableEq, Repr

/-- Whether the addressing unit is a map key. -/
def AmProp.isMapKey : AmProp → Bool
  | .mapKey _ => true
  | .index _ => false

/-- Whether the addressing unit is a list index. -/
def AmProp.isIndex : AmProp → Bool
  | .mapKey _ => false
  | .index _ => true

/-- Canonical string rendering of a prop, used for canonical sorted views. -/
def AmProp.keyString : AmProp → String
  | .mapKey s => s
  | .index n => toString n

/-- Object kinds: map, list, or text container. -/
inductive ObjType where
  | map
  | list
  | text
deriving DecidableEq, Repr

/-- Scalar values storable at a slot (spec data model, abridged to the shapes
the claims touch). -/
inductive ScalarValue where
  | str (s : String)
  | int (n : Int)
  | boolean (b : Bool)
  | counter (n : Int)
  | null
deriving DecidableEq, Repr

/-- A value: a scalar or a reference to a nested object. -/
inductive Value where
  | scalar (v : ScalarValue)
  | object (t : ObjType)
deriving DecidableEq, Repr

/-! ## Observer/patch subsystem, from `src/automerge/src/op_observer.rs` -/

/-- A notification to the application that something changed in a document
(`enum Patch` in `op_observer.rs`). `Value<'static>` ownership is erased by
the embedding, so `into_owned()` on a value is the identity. -/
inductive Patch where
  | Put (obj : ExId) (key : AmProp) (value : Value × ExId) (conflict : Bool)
  | Insert (obj : ExId) (index : Nat) (value : Value × ExId)
  | Delete (obj : ExId) (key : AmProp)
deriving DecidableEq, Repr

/-- The collecting observer: captures operations into a list of patches
(`struct VecOpObserver`). -/
structure VecOpObserver where
  patches : List Patch
deriving DecidableEq, Repr

/-- Source: `std::mem::take(&mut self.patches)` — returns the accumulated
patches and leaves the internal list empty. -/
def VecOpObserver.take_patches (o : VecOpObserver) : List Patch × VecOpObserver :=
  (o.patches, ⟨[]⟩)

/-- Source: `self.patches.push(Patch::Insert { .. })`. -/
def VecOpObserver.insert (o : VecOpObserver) (obj_id : ExId) (index : Nat)
    (tagged_value : Value × ExId) : VecOpObserver :=
  ⟨o.patches ++ [Patch.Insert obj_id index tagged_value]⟩

/-- Source: `self.patches.push(Patch::Put { .. })`. -/
def VecOpObserver.put (o : VecOpObserver) (objid : ExId) (key : AmProp)
    (tagged_value : Value × ExId) (conflict : Bool) : VecOpObserver :=
  ⟨o.patches ++ [Patch.Put objid key tagged_value conflict]⟩

/-- Source: `self.patches.push(Patch::Delete { .. })`. -/
def VecOpObserver.delete (o : VecOpObserver) (objid : ExId) (key : AmProp) : VecOpObserver :=
  ⟨o.patches ++ [Patch.Delete objid key]⟩

/-- One call of the `OpObserver` trait surface, reified so sequences of
notifications can be folded over an observer. -/
inductive Notification where
  | insert (objid : ExId) (index : Nat) (tagged_value : Value × ExId)
  | put (objid : ExId) (key : AmProp) (tagged_value : Value × ExId) (conflict : Bool)
  | delete (objid : ExId) (key : AmProp)
deriving DecidableEq, Repr

/-- Dispatch one notification to the collecting observer. -/
def VecOpObserver.notify (o : VecOpObserver) : Notification → VecOpObserver
  | .insert objid index tv => o.insert objid index tv
  | .put objid key tv conflict => o.put objid key tv conflict
  | .delete objid key => o.delete objid key

/-- The patch a single notification records. -/
def Notification.toPatch : Notification → Patch
  | .insert objid index tv => Patch.Insert objid index tv
  | .put objid key tv conflict => Patch.Put objid key tv conflict
  | .delete objid key => Patch.Delete objid key

/-! ## Modelled inner engine

The types below (`Change`, `Automerge`, `TransactionInner`, the sync types and
the query layer) correspond to code of this repository that is not in the
excerpted source; they are modelled from the specification. -/

/-- One recorded operation: target object, addressed slot, and what it does.
Modelled from the spec: an operation targets one object and one `Prop`. -/
inductive OpAction where
  | put (v : ScalarValue)
  | putObject (t : ObjType)
  | insert (v : ScalarValue)
  | insertObject (t : ObjType)
  | increment (n : Int)
  | del
deriving DecidableEq, Repr

/-- Whether this action is a deletion (a tombstoning write). -/
def OpAction.isDel : OpAction → Bool
  | .del => true
  | _ => false

/-- An operation recorded by a transaction. -/
structure AmOp where
  obj : ExId
  prop : AmProp
  action : OpAction
deriving DecidableEq, Repr

/-- Modelled from the spec: a `Change` is an atomically-applied, ordered batch
of operations plus explicit parent hashes, an actor id, a per-actor starting
counter, optional message and timestamp. -/
structure Change where
  actor : ActorId
  startOp : Nat
  ops : List AmOp
  deps : List ChangeHash
  message : Option String
  time : Option Int
deriving DecidableEq, Repr

/-- Modelled from the spec: change identity is a content hash; the real hash
(binary encoding plus a cryptographic digest) is declared out of scope, so a
deterministic stand-in combination of the fields is used. Content-addressed
identity itself is modelled by equality of `Change` values. -/
def Change.hash (c : Change) : ChangeHash :=
  c.actor + 2 * c.startOp + 3 * c.ops.length + 5 * c.deps.length + 7 * c.deps.sum

/-- Modelled from the spec: the Document owns the history DAG (set of changes),
the local actor id, and the next local counter. The object tree is derived
from the history by the query layer rather than stored. -/
structure Automerge where
  history : List Change
  actor : ActorId
  maxOp : Nat
deriving DecidableEq, Repr

/-- A fresh, empty document. -/
def Automerge.new : Automerge := ⟨[], 0, 0⟩

/-- Modelled from the spec: change the local actor id. -/
def Automerge.set_actor (d : Automerge) (actor : ActorId) : Automerge :=
  { d with actor := actor }

/-- The local actor id. -/
def Automerge.get_actor (d : Automerge) : ActorId := d.actor

/-- Modelled from the spec: fork is a deep, independent copy; in a pure
embedding a deep copy is the value itself. -/
def Automerge.fork (d : Automerge) : Automerge := d

/-- Modelled from the spec: heads are the hashes of changes with no known
child in the current DAG. -/
def Automerge.get_heads (d : Automerge) : List ChangeHash :=
  (d.history.filter
    (fun c => !(d.history.any (fun c2 => decide (c.hash ∈ c2.deps))))).map Change.hash

/-- Modelled from the spec: a Transaction holds the pending (not-yet-hashed)
operations and the local actor's counter snapshot. -/
structure TransactionInner where
  actor : ActorId
  startOp : Nat
  operations : List AmOp
deriving DecidableEq, Repr

/-- The number of operations pending in this transaction. -/
def TransactionInner.pending_ops (tx : TransactionInner) : Nat :=
  tx.operations.length

/-- Modelled from the spec: opening a transaction snapshots the local actor id
and the next counter value, with no pending operations. -/
def Automerge.transaction_inner (d : Automerge) : TransactionInner :=
  ⟨d.actor, d.maxOp + 1, []⟩

/-- Modelled from the spec: commit seals the pending operations into one
`Change` whose parents are the current heads, appends it to the history, and
returns its hash; the local counter advances past the sealed operations. -/
def TransactionInner.commit (tx : TransactionInner) (d : Automerge)
    (message : Option String) (time : Option Int) : ChangeHash × Automerge :=
  ((Change.mk tx.actor tx.startOp tx.operations d.get_heads message time).hash,
   { d with
      history := d.history ++ [Change.mk tx.actor tx.startOp tx.operations d.get_heads message time],
      maxOp := tx.startOp + tx.operations.length })

/-- Modelled from the spec: rollback discards the pending operations and
returns their count. In this model pending operations are only recorded in
the transaction (the eager in-tree application and counter advance happen at
commit), so reverting them leaves the document as it was. -/
def TransactionInner.rollback (tx : TransactionInner) (d : Automerge) : Nat × Automerge :=
  (tx.operations.length, d)

/-- Record a pending `put`. Modelled from the spec: validation against the
object tree belongs to the engine outside the excerpt and is not modelled. -/
def TransactionInner.put (tx : TransactionInner) (obj : ExId) (p : AmProp)
    (v : ScalarValue) : TransactionInner :=
  { tx with operations := tx.operations ++ [⟨obj, p, OpAction.put v⟩] }

/-- Record a pending `put_object`, returning the id of the created object
(the op id of the creating operation). -/
def TransactionInner.put_object (tx : TransactionInner) (obj : ExId) (p : AmProp)
    (t : ObjType) : ExId × TransactionInner :=
  (tx.startOp + tx.operations.length,
   { tx with operations := tx.operations ++ [⟨obj, p, OpAction.putObject t⟩] })

/-- Record a pending positional `insert`. -/
def TransactionInner.insert (tx : TransactionInner) (obj : ExId) (index : Nat)
    (v : ScalarValue) : TransactionInner :=
  { tx with operations := tx.operations ++ [⟨obj, AmProp.index index, OpAction.insert v⟩] }

/-- Record a pending positional `insert_object`, returning the created id. -/
def TransactionInner.insert_object (tx : TransactionInner) (obj : ExId) (index : Nat)
    (t : ObjType) : ExId × TransactionInner :=
  (tx.startOp + tx.operations.length,
   { tx with operations := tx.operations ++ [⟨obj, AmProp.index index, OpAction.insertObject t⟩] })

/-- Record a pending counter `increment`. -/
def TransactionInner.increment (tx : TransactionInner) (obj : ExId) (p : AmProp)
    (n : Int) : TransactionInner :=
  { tx with operations := tx.operations ++ [⟨obj, p, OpAction.increment n⟩] }

/-- Record a pending `delete`. -/
def TransactionInner.del (tx : TransactionInner) (obj : ExId) (p : AmProp) : TransactionInner :=
  { tx with operations := tx.operations ++ [⟨obj, p, OpAction.del⟩] }

/-- Record a pending `splice`: a batched run of deletes then inserts. -/
def TransactionInner.splice (tx : TransactionInner) (obj : ExId) (pos delCount : Nat)
    (vals : List ScalarValue) : TransactionInner :=
  { tx with operations := tx.operations
      ++ (List.range delCount).map (fun i => ⟨obj, AmProp.index (pos + i), OpAction.del⟩)
      ++ vals.enum.map (fun p => ⟨obj, AmProp.index (pos + p.1), OpAction.insert p.2⟩) }

/-- Modelled from the spec: `merge` takes all the changes in `other` which are
not in `self` (hash-set difference; content addressing is collision-free, so
hash equality coincides with change equality) and applies them, returning the
hashes of the changes taken. -/
def Automerge.mergeDoc (d other : Automerge) : List ChangeHash × Automerge :=
  ((other.history.filter (fun c => decide (c ∉ d.history))).map Change.hash,
   { d with history := d.history ++ other.history.filter (fun c => decide (c ∉ d.history)) })

/-- Modelled from the spec: serialization is an external collaborator; a
deterministic stand-in encoding of the history suffices at this boundary. -/
def Automerge.save (d : Automerge) : List Nat :=
  d.history.map Change.hash

/-- Modelled from the spec: incremental serialization, same external boundary. -/
def Automerge.save_incremental (d : Automerge) : List Nat :=
  d.history.map Change.hash

/-- Modelled from the spec: per-peer sync state records the frontier last sent
to the peer and a summary of what the peer already has. -/
structure SyncState where
  sharedHeads : List ChangeHash
  lastSentHeads : List ChangeHash
deriving DecidableEq, Repr

/-- Modelled from the spec: a sync message carries the sender's heads and the
changes the sender believes the peer is missing. -/
structure SyncMessage where
  heads : List ChangeHash
  changes : List Change
deriving DecidableEq, Repr

/-- Modelled from the spec: produce `none` if nothing new was sent since the
last message, otherwise the changes the peer is believed to be missing. -/
def Automerge.generate_sync_message (d : Automerge) (st : SyncState) :
    Option SyncMessage × SyncState :=
  if d.get_heads = st.lastSentHeads then (none, st)
  else
    (some ⟨d.get_heads, d.history.filter (fun c => decide (c.hash ∉ st.sharedHeads))⟩,
     { st with lastSentHeads := d.get_heads })

/-- Modelled from the spec: apply the changes carried in the message that are
not yet known, and record the peer's frontier. -/
def Automerge.receive_sync_message (d : Automerge) (st : SyncState)
    (m : SyncMessage) : Automerge × SyncState :=
  ({ d with history := d.history ++ m.changes.filter (fun c => decide (c ∉ d.history)) },
   { st with sharedHeads := m.heads })

/-! ## Derived query layer

Modelled from the spec: the observable view of a document is a deterministic
function of the set of changes in its history (the application engine applies
changes in a replica-independent total order). Queries therefore factor
through the finite set of op-id-tagged slot writes derived from the history.
Causal conflict-set pruning is abstracted: the winning entries of a slot are
those with maximal op id, which preserves the determinism and
order-independence that the claims rely on. -/

/-- A tagged slot write: (object, prop, op id, action). -/
abbrev Entry := ExId × AmProp × Nat × OpAction

/-- The ops of a change tagged with their op ids (`startOp`, `startOp + 1`, ...). -/
def Change.taggedOps (c : Change) : List Entry :=
  c.ops.enum.map (fun p => (p.2.obj, p.2.prop, c.startOp + p.1, p.2.action))

/-- The entry set contributed by one change. -/
def changeEntries (c : Change) : Finset Entry :=
  c.taggedOps.toFinset

/-- The history as a set of changes (content-addressed identity). -/
def Automerge.changeSet (d : Automerge) : Finset Change :=
  d.history.toFinset

/-- All tagged slot writes of the document, as a set. -/
def Automerge.entries (d : Automerge) : Finset Entry :=
  d.changeSet.biUnion changeEntries

/-- The writes recorded against one slot. -/
def slotOf (E : Finset Entry) (obj : ExId) (p : AmProp) : Finset (Nat × OpAction) :=
  (E.filter (fun e => e.1 = obj ∧ e.2.1 = p)).image (fun e => e.2.2)

/-- The not-yet-superseded writes of a slot: those of maximal op id. -/
def qWinners (E : Finset Entry) (obj : ExId) (p : AmProp) : Finset (Nat × OpAction) :=
  (slotOf E obj p).filter (fun w => ∀ w2 ∈ slotOf E obj p, w2.1 ≤ w.1)

/-- The conflict set visible at a slot: the surviving value-bearing writes. -/
def qConflicts (E : Finset Entry) (obj : ExId) (p : AmProp) : Finset (Nat × OpAction) :=
  (qWinners E obj p).filter (fun w => !w.2.isDel)

/-- The winning op id of a slot for plain reads, if the slot is live. -/
def qGet (E : Finset Entry) (obj : ExId) (p : AmProp) : Option Nat :=
  if (qConflicts E obj p).Nonempty then some ((qConflicts E obj p).sup (fun w => w.1))
  else none

/-- The props ever written inside one object. -/
def qProps (E : Finset Entry) (obj : ExId) : Finset AmProp :=
  (E.filter (fun e => e.1 = obj)).image (fun e => e.2.1)

/-- The live map keys of an object, in canonical sorted order. -/
def qKeys (E : Finset Entry) (obj : ExId) : List String :=
  (((qProps E obj).filter
      (fun p => (qGet E obj p).isSome ∧ p.isMapKey)).image AmProp.keyString).sort (· ≤ ·)

/-- The number of live positional slots of a sequence object. -/
def qLength (E : Finset Entry) (obj : ExId) : Nat :=
  ((qProps E obj).filter (fun p => (qGet E obj p).isSome ∧ p.isIndex)).card

/-- The winning op ids over all live slots of an object, canonically sorted. -/
def qValues (E : Finset Entry) (obj : ExId) : List Nat :=
  (((qProps E obj).filter (fun p => (qGet E obj p).isSome)).image
      (fun p => (qGet E obj p).getD 0)).sort (· ≤ ·)

/-- Canonical rendering of a scalar. -/
def renderScalar : ScalarValue → String
  | .str s => s
  | .int n => toString n
  | .boolean b => toString b
  | .counter n => toString n
  | .null => "null"

/-- Canonical rendering of an action, used for the text view. -/
def renderAction : OpAction → String
  | .put v => renderScalar v
  | .putObject _ => ""
  | .insert v => renderScalar v
  | .insertObject _ => ""
  | .increment n => toString n
  | .del => ""

/-- The text content of an object: the canonical rendering of its surviving
insertions (element order is abstracted to a canonical order). -/
def qText (E : Finset Entry) (obj : ExId) : String :=
  String.join (((E.filter (fun e => e.1 = obj ∧ !e.2.2.2.isDel)).image
      (fun e => toString e.2.2.1 ++ ":" ++ renderAction e.2.2.2)).sort (· ≤ ·))

/-- Keys of an object (query surface). -/
def Automerge.keys (d : Automerge) (obj : ExId) : List String :=
  qKeys d.entries obj

/-- Winning values of an object (query surface). -/
def Automerge.values (d : Automerge) (obj : ExId) : List Nat :=
  qValues d.entries obj

/-- Length of a sequence object (query surface). -/
def Automerge.length (d : Automerge) (obj : ExId) : Nat :=
  qLength d.entries obj

/-- Text content of a text object (query surface). -/
def Automerge.text (d : Automerge) (obj : ExId) : String :=
  qText d.entries obj

/-- Winning value of a slot (query surface; the winning op id identifies the
winning tagged value). -/
def Automerge.get (d : Automerge) (obj : ExId) (p : AmProp) : Option Nat :=
  qGet d.entries obj p

/-- Conflict set of a slot (query surface). -/
def Automerge.get_conflicts (d : Automerge) (obj : ExId) (p : AmProp) :
    Finset (Nat × OpAction) :=
  qConflicts d.entries obj p

/-- Modelled from the spec: the changes transitively reachable from the given
heads through dependency links; fuelled recursion over the (finite) history. -/
def reachableChanges (hist : List Change) : Nat → List ChangeHash → List Change
  | 0, _ => []
  | fuel + 1, hs =>
      hist.filter (fun c => decide (c.hash ∈ hs))
        ++ reachableChanges hist fuel
            ((hist.filter (fun c => decide (c.hash ∈ hs))).map Change.deps).flatten

/-- Modelled from the spec: the document view as it existed causally at the
given heads — the history restricted to the causal past of the heads. -/
def Automerge.viewAt (d : Automerge) (heads : List ChangeHash) : Automerge :=
  { d with history := reachableChanges d.history (d.history.length + 1) heads }

/-- Keys at a past view (query surface). -/
def Automerge.keys_at (d : Automerge) (obj : ExId) (heads : List ChangeHash) : List String :=
  (d.viewAt heads).keys obj

/-- Length at a past view (query surface). -/
def Automerge.length_at (d : Automerge) (obj : ExId) (heads : List ChangeHash) : Nat :=
  (d.viewAt heads).length obj

/-- Text at a past view (query surface). -/
def Automerge.text_at (d : Automerge) (obj : ExId) (heads : List ChangeHash) : String :=
  (d.viewAt heads).text obj

/-- Winning value at a past view (query surface). -/
def Automerge.get_at (d : Automerge) (obj : ExId) (p : AmProp)
    (heads : List ChangeHash) : Option Nat :=
  (d.viewAt heads).get obj p

/-- Conflict set at a past view (query surface). -/
def Automerge.get_conflicts_at (d : Automerge) (obj : ExId) (p : AmProp)
    (heads : List ChangeHash) : Finset (Nat × OpAction) :=
  (d.viewAt heads).get_conflicts obj p

/-! ## The auto-transaction wrapper, from `src/automerge/src/autocommit.rs` -/

/-- `struct AutoCommit { doc: Automerge, transaction: Option<TransactionInner> }`. -/
structure AutoCommit where
  doc : Automerge
  transaction : Option TransactionInner
deriving DecidableEq, Repr

/-- `AutoCommit::new`. -/
def AutoCommit.new : AutoCommit :=
  ⟨Automerge.new, none⟩

/-- Source: `if self.transaction.is_none() { self.transaction = Some(self.doc.transaction_inner()); }`. -/
def AutoCommit.ensure_transaction_open (s : AutoCommit) : AutoCommit :=
  match s.transaction with
  | none => { s with transaction := some s.doc.transaction_inner }
  | some _ => s

/-- Source: `if let Some(tx) = self.transaction.take() { tx.commit(&mut self.doc, None, None); }`
— the produced hash is discarded. -/
def AutoCommit.ensure_transaction_closed (s : AutoCommit) : AutoCommit :=
  match s.transaction with
  | some tx => { doc := (tx.commit s.doc none none).2, transaction := none }
  | none => s

/-- `AutoCommit::with_actor`: closes the transaction, then sets the actor. -/
def AutoCommit.with_actor (s : AutoCommit) (actor : ActorId) : AutoCommit :=
  { s.ensure_transaction_closed with
      doc := (s.ensure_transaction_closed).doc.set_actor actor }

/-- `AutoCommit::set_actor`: closes the transaction, then sets the actor. -/
def AutoCommit.set_actor (s : AutoCommit) (actor : ActorId) : AutoCommit :=
  { s.ensure_transaction_closed with
      doc := (s.ensure_transaction_closed).doc.set_actor actor }

/-- `AutoCommit::get_actor` (`&self`). -/
def AutoCommit.get_actor (s : AutoCommit) : ActorId :=
  s.doc.get_actor

/-- `AutoCommit::fork`: closes the transaction, then pairs the forked handle
(built from `self.doc.fork()` and a clone of the now-empty transaction slot)
with the mutated original. -/
def AutoCommit.fork (s : AutoCommit) : AutoCommit × AutoCommit :=
  (⟨(s.ensure_transaction_closed).doc.fork, (s.ensure_transaction_closed).transaction⟩,
   s.ensure_transaction_closed)

/-- `AutoCommit::merge`: closes both transactions, then merges the documents.
Returns (hashes applied, mutated self, mutated other). -/
def AutoCommit.merge (s other : AutoCommit) : List ChangeHash × AutoCommit × AutoCommit :=
  (((s.ensure_transaction_closed).doc.mergeDoc (other.ensure_transaction_closed).doc).1,
   { s.ensure_transaction_closed with
       doc := ((s.ensure_transaction_closed).doc.mergeDoc
                 (other.ensure_transaction_closed).doc).2 },
   other.ensure_transaction_closed)

/-- `AutoCommit::save`: closes the transaction, then serializes. -/
def AutoCommit.save (s : AutoCommit) : List Nat × AutoCommit :=
  ((s.ensure_transaction_closed).doc.save, s.ensure_transaction_closed)

/-- `AutoCommit::save_incremental`: closes the transaction, then serializes. -/
def AutoCommit.save_incremental (s : AutoCommit) : List Nat × AutoCommit :=
  ((s.ensure_transaction_closed).doc.save_incremental, s.ensure_transaction_closed)

/-- `AutoCommit::generate_sync_message`: closes the transaction first.
Returns (message, updated sync state, mutated self). -/
def AutoCommit.generate_sync_message (s : AutoCommit) (st : SyncState) :
    Option SyncMessage × SyncState × AutoCommit :=
  (((s.ensure_transaction_closed).doc.generate_sync_message st).1,
   ((s.ensure_transaction_closed).doc.generate_sync_message st).2,
   s.ensure_transaction_closed)

/-- `AutoCommit::receive_sync_message`: closes the transaction first.
Returns (updated sync state, mutated self). -/
def AutoCommit.receive_sync_message (s : AutoCommit) (st : SyncState) (m : SyncMessage) :
    SyncState × AutoCommit :=
  (((s.ensure_transaction_closed).doc.receive_sync_message st m).2,
   { s.ensure_transaction_closed with
       doc := ((s.ensure_transaction_closed).doc.receive_sync_message st m).1 })

/-- `AutoCommit::get_heads`: closes the transaction first. -/
def AutoCommit.get_heads (s : AutoCommit) : List ChangeHash × AutoCommit :=
  ((s.ensure_transaction_closed).doc.get_heads, s.ensure_transaction_closed)

/-- `CommitOptions { message, time }`. -/
structure CommitOptions where
  message : Option String
  time : Option Int
deriving DecidableEq, Repr

/-- `CommitOptions::default()`. -/
def CommitOptions.default : CommitOptions :=
  ⟨none, none⟩

/-- `AutoCommit::commit_with`: ensures a transaction is open (so that even no
changes trigger a change), takes it and commits it. The `none` branch is
unreachable: `ensure_transaction_open` always leaves an open transaction
(the source unwraps at this point). -/
def AutoCommit.commit_with (s : AutoCommit) (options : CommitOptions) :
    ChangeHash × AutoCommit :=
  match (s.ensure_transaction_open).transaction with
  | some tx =>
      ((tx.commit (s.ensure_transaction_open).doc options.message options.time).1,
       { doc := (tx.commit (s.ensure_transaction_open).doc options.message options.time).2,
         transaction := none })
  | none => (0, s.ensure_transaction_open)

/-- `AutoCommit::commit`: commit with default options. -/
def AutoCommit.commit (s : AutoCommit) : ChangeHash × AutoCommit :=
  s.commit_with CommitOptions.default

/-- Source: `self.transaction.take().map(|tx| tx.rollback(&mut self.doc)).unwrap_or(0)`. -/
def AutoCommit.rollback (s : AutoCommit) : Nat × AutoCommit :=
  match s.transaction with
  | some tx => ((tx.rollback s.doc).1, { doc := (tx.rollback s.doc).2, transaction := none })
  | none => (0, s)

/-- `Transactable::pending_ops` for `AutoCommit` (`&self`). -/
def AutoCommit.pending_ops (s : AutoCommit) : Nat :=
  match s.transaction with
  | some t => t.pending_ops
  | none => 0

/-- `Transactable::keys` for `AutoCommit` (`&self`, delegates to the document
without touching the transaction). -/
def AutoCommit.keys (s : AutoCommit) (obj : ExId) : List String :=
  s.doc.keys obj

/-- `Transactable::keys_at` (`&self`). -/
def AutoCommit.keys_at (s : AutoCommit) (obj : ExId) (heads : List ChangeHash) : List String :=
  s.doc.keys_at obj heads

/-- `Transactable::values` (`&self`). -/
def AutoCommit.values (s : AutoCommit) (obj : ExId) : List Nat :=
  s.doc.values obj

/-- `Transactable::length` (`&self`). -/
def AutoCommit.length (s : AutoCommit) (obj : ExId) : Nat :=
  s.doc.length obj

/-- `Transactable::length_at` (`&self`). -/
def AutoCommit.length_at (s : AutoCommit) (obj : ExId) (heads : List ChangeHash) : Nat :=
  s.doc.length_at obj heads

/-- `Transactable::text` (`&self`). -/
def AutoCommit.text (s : AutoCommit) (obj : ExId) : String :=
  s.doc.text obj

/-- `Transactable::text_at` (`&self`). -/
def AutoCommit.text_at (s : AutoCommit) (obj : ExId) (heads : List ChangeHash) : String :=
  s.doc.text_at obj heads

/-- `Transactable::get` (`&self`). -/
def AutoCommit.get (s : AutoCommit) (obj : ExId) (p : AmProp) : Option Nat :=
  s.doc.get obj p

/-- `Transactable::get_at` (`&self`). -/
def AutoCommit.get_at (s : AutoCommit) (obj : ExId) (p : AmProp)
    (heads : List ChangeHash) : Option Nat :=
  s.doc.get_at obj p heads

/-- `Transactable::get_conflicts` (`&self`). -/
def AutoCommit.get_conflicts (s : AutoCommit) (obj : ExId) (p : AmProp) :
    Finset (Nat × OpAction) :=
  s.doc.get_conflicts obj p

/-- `Transactable::get_conflicts_at` (`&self`). -/
def AutoCommit.get_conflicts_at (s : AutoCommit) (obj : ExId) (p : AmProp)
    (heads : List ChangeHash) : Finset (Nat × OpAction) :=
  s.doc.get_conflicts_at obj p heads

/-- `Transactable::put` for `AutoCommit`: ensures a transaction is open, then
records the operation on it. The `none` branch is unreachable (the source
unwraps after `ensure_transaction_open`). -/
def AutoCommit.put (s : AutoCommit) (obj : ExId) (p : AmProp) (v : ScalarValue) : AutoCommit :=
  match (s.ensure_transaction_open).transaction with
  | some tx => { s.ensure_transaction_open with transaction := some (tx.put obj p v) }
  | none => s.ensure_transaction_open

/-- `Transactable::put_object`: ensures a transaction is open, then records
the operation, returning the created object's id. -/
def AutoCommit.put_object (s : AutoCommit) (obj : ExId) (p : AmProp) (t : ObjType) :
    ExId × AutoCommit :=
  match (s.ensure_transaction_open).transaction with
  | some tx =>
      ((tx.put_object obj p t).1,
       { s.ensure_transaction_open with transaction := some (tx.put_object obj p t).2 })
  | none => (0, s.ensure_transaction_open)

/-- `Transactable::insert`: ensures a transaction is open, then records it. -/
def AutoCommit.insert (s : AutoCommit) (obj : ExId) (index : Nat) (v : ScalarValue) : AutoCommit :=
  match (s.ensure_transaction_open).transaction with
  | some tx => { s.ensure_transaction_open with transaction := some (tx.insert obj index v) }
  | none => s.ensure_transaction_open

/-- `Transactable::insert_object`: ensures a transaction is open, then records
it, returning the created object's id. -/
def AutoCommit.insert_object (s : AutoCommit) (obj : ExId) (index : Nat) (t : ObjType) :
    ExId × AutoCommit :=
  match (s.ensure_transaction_open).transaction with
  | some tx =>
      ((tx.insert_object obj index t).1,
       { s.ensure_transaction_open with transaction := some (tx.insert_object obj index t).2 })
  | none => (0, s.ensure_transaction_open)

/-- `Transactable::increment`: ensures a transaction is open, then records it. -/
def AutoCommit.increment (s : AutoCommit) (obj : ExId) (p : AmProp) (n : Int) : AutoCommit :=
  match (s.ensure_transaction_open).transaction with
  | some tx => { s.ensure_transaction_open with transaction := some (tx.increment obj p n) }
  | none => s.ensure_transaction_open

/-- `Transactable::delete`: ensures a transaction is open, then records it. -/
def AutoCommit.delete (s : AutoCommit) (obj : ExId) (p : AmProp) : AutoCommit :=
  match (s.ensure_transaction_open).transaction with
  | some tx => { s.ensure_transaction_open with transaction := some (tx.del obj p) }
  | none => s.ensure_transaction_open

/-- `Transactable::splice`: ensures a transaction is open, then records it. -/
def AutoCommit.splice (s : AutoCommit) (obj : ExId) (pos delCount : Nat)
    (vals : List ScalarValue) : AutoCommit :=
  match (s.ensure_transaction_open).transaction with
  | some tx =>
      { s.ensure_transaction_open with transaction := some (tx.splice obj pos delCount vals) }
  | none => s.ensure_transaction_open

/-! State-passing forms of the `&self` query methods. The receiver is a shared
borrow in the source, so the post-state of the call is the pre-state; these
wrappers make that explicit so frame properties can be stated. -/

/-- The `keys` method call in state-passing form. -/
def AutoCommit.keysCall (s : AutoCommit) (obj : ExId) : List String × AutoCommit :=
  (s.keys obj, s)

/-- The `values` method call in state-passing form. -/
def AutoCommit.valuesCall (s : AutoCommit) (obj : ExId) : List Nat × AutoCommit :=
  (s.values obj, s)

/-- The `length` method call in state-passing form. -/
def AutoCommit.lengthCall (s : AutoCommit) (obj : ExId) : Nat × AutoCommit :=
  (s.length obj, s)

/-- The `text` method call in state-passing form. -/
def AutoCommit.textCall (s : AutoCommit) (obj : ExId) : String × AutoCommit :=
  (s.text obj, s)

/-- The `get` method call in state-passing form. -/
def AutoCommit.getCall (s : AutoCommit) (obj : ExId) (p : AmProp) :
    Option Nat × AutoCommit :=
  (s.get obj p, s)

/-- The `get_conflicts` method call in state-passing form. -/
def AutoCommit.get_conflictsCall (s : AutoCommit) (obj : ExId) (p : AmProp) :
    Finset (Nat × OpAction) × AutoCommit :=
  (s.get_conflicts obj p, s)

/-- The `keys_at` method call in state-passing form. -/
def AutoCommit.keys_atCall (s : AutoCommit) (obj : ExId) (heads : List ChangeHash) :
    List String × AutoCommit :=
  (s.keys_at obj heads, s)

/-- The `length_at` method call in state-passing form. -/
def AutoCommit.length_atCall (s : AutoCommit) (obj : ExId) (heads : List ChangeHash) :
    Nat × AutoCommit :=
  (s.length_at obj heads, s)

/-- The `text_at` method call in state-passing form. -/
def AutoCommit.text_atCall (s : AutoCommit) (obj : ExId) (heads : List ChangeHash) :
    String × AutoCommit :=
  (s.text_at obj heads, s)

/-- The `get_at` method call in state-passing form. -/
def AutoCommit.get_atCall (s : AutoCommit) (obj : ExId) (p : AmProp)
    (heads : List ChangeHash) : Option Nat × AutoCommit :=
  (s.get_at obj p heads, s)

/-- The `get_conflicts_at` method call in state-passing form. -/
def AutoCommit.get_conflicts_atCall (s : AutoCommit) (obj : ExId) (p : AmProp)
    (heads : List ChangeHash) : Finset (Nat × OpAction) × AutoCommit :=
  (s.get_conflicts_at obj p heads, s)

/-- The number of transactions currently open on a handle (the field is an
`Option`, so this is zero or one). -/
def AutoCommit.openTransactionCount (s : AutoCommit) : Nat :=
  match s.transaction with
  | some _ => 1
  | none => 0

/-! ## Theorems -/

/-- C7: `take_patches` returns the full accumulated patch sequence in order,
leaves the observer's internal patch list empty, and a second `take_patches`
immediately afterwards returns the empty sequence. -/
theorem take_patches_drains (o : VecOpObserver) :
    (o.take_patches).1 = o.patches
  ∧ (o.take_patches).2.patches = []
  ∧ ((o.take_patches).2.take_patches).1 = [] :=
  ⟨rfl, rfl, rfl⟩

/-- C8: each observer notification appends exactly one patch of the matching
kind, carrying exactly the given arguments, at the end of the patch list and
leaving the previously accumulated patches unchanged; hence any sequence of
notifications is recorded in order, one patch per notification. -/
theorem observer_appends_one_patch_each (o : VecOpObserver) (objid : ExId) (i : Nat)
    (tv : Value × ExId) (k : AmProp) (conflict : Bool) (ns : List Notification) :
    (o.insert objid i tv).patches = o.patches ++ [Patch.Insert objid i tv]
  ∧ (o.put objid k tv conflict).patches = o.patches ++ [Patch.Put objid k tv conflict]
  ∧ (o.delete objid k).patches = o.patches ++ [Patch.Delete objid k]
  ∧ (ns.foldl VecOpObserver.notify o).patches = o.patches ++ ns.map Notification.toPatch := by
  refine ⟨rfl, rfl, rfl, ?_⟩
  induction ns generalizing o with
  | nil => simp
  | cons n rest ih =>
      cases n <;>
        simp [List.foldl_cons, VecOpObserver.notify, Notification.toPatch,
              VecOpObserver.insert, VecOpObserver.put, VecOpObserver.delete, ih]

/-- C10: the handle returned by `fork` has no open transaction and zero
pending operations: any transaction open on the original is committed before
the fork is taken. -/
theorem fork_has_no_pending_ops (s : AutoCommit) :
    (s.fork).1.transaction = none ∧ (s.fork).1.pending_ops = 0 := by
  obtain ⟨d, tx⟩ := s
  cases tx <;> exact ⟨rfl, rfl⟩

/-- C5: `set_actor`, `with_actor` and `fork` first commit any open
transaction, so the actor-id change (applied to the already-closed document)
and the fork boundary never occur while a transaction is open. -/
theorem actor_change_and_fork_close_first (s : AutoCommit) (a : ActorId) :
    (s.set_actor a).transaction = none
  ∧ (s.with_actor a).transaction = none
  ∧ (s.fork).2.transaction = none
  ∧ (s.fork).1.transaction = none
  ∧ (s.set_actor a).doc = ((s.ensure_transaction_closed).doc).set_actor a
  ∧ (s.with_actor a).doc = ((s.ensure_transaction_closed).doc).set_actor a
  ∧ (s.fork).1.doc = ((s.ensure_transaction_closed).doc).fork := by
  obtain ⟨d, tx⟩ := s
  cases tx <;> exact ⟨rfl, rfl, rfl, rfl, rfl, rfl, rfl⟩

/-- C6: `rollback` returns the count of the open transaction's pending
(reverted) operations — zero when no transaction is open, in which case the
handle is returned unchanged — and afterwards no transaction is open. -/
theorem rollback_discards_and_counts (s : AutoCommit) :
    (s.rollback).1 = s.pending_ops
  ∧ (s.rollback).2.transaction = none
  ∧ (AutoCommit.mk s.doc none).rollback = (0, AutoCommit.mk s.doc none) := by
  obtain ⟨d, tx⟩ := s
  cases tx <;> exact ⟨rfl, rfl, rfl⟩

/-- C3: `commit_with` (and hence `commit`) is total: a transaction is lazily
opened if none is open, a change is always produced and appended to the
history — even with zero pending operations — and the returned hash is that
change's hash, with no transaction left open. -/
theorem commit_always_appends_change (s : AutoCommit) (opts : CommitOptions) :
    (s.commit_with opts).2.transaction = none
  ∧ ∃ c : Change,
      (s.commit_with opts).2.doc.history = s.doc.history ++ [c]
    ∧ (s.commit_with opts).1 = c.hash := by
  obtain ⟨d, tx⟩ := s
  cases tx with
  | none => exact ⟨rfl, _, rfl, rfl⟩
  | some t => exact ⟨rfl, _, rfl, rfl⟩

/-- C4: at most one transaction is ever open: the transaction slot holds zero
or one transactions in every state, every mutating call leaves exactly one
open, and a mutating call on a handle with an open transaction extends that
same transaction instead of creating a second one (`ensure_transaction_open`
opens only if none is open). -/
theorem at_most_one_open_transaction (s : AutoCommit) (obj : ExId) (p : AmProp)
    (v : ScalarValue) (t : ObjType) (i : Nat) (n : Int) (pos dcount : Nat)
    (vals : List ScalarValue) :
    s.openTransactionCount ≤ 1
  ∧ (s.put obj p v).openTransactionCount = 1
  ∧ (s.put_object obj p t).2.openTransactionCount = 1
  ∧ (s.insert obj i v).openTransactionCount = 1
  ∧ (s.insert_object obj i t).2.openTransactionCount = 1
  ∧ (s.increment obj p n).openTransactionCount = 1
  ∧ (s.delete obj p).openTransactionCount = 1
  ∧ (s.splice obj pos dcount vals).openTransactionCount = 1
  ∧ (s.put obj p v).transaction
      = some ((match s.transaction with
               | some tx => tx
               | none => s.doc.transaction_inner).put obj p v) := by
  obtain ⟨d, tx⟩ := s
  cases tx with
  | none => exact ⟨Nat.zero_le 1, rfl, rfl, rfl, rfl, rfl, rfl, rfl, rfl⟩
  | some t0 => exact ⟨Nat.le_refl 1, rfl, rfl, rfl, rfl, rfl, rfl, rfl, rfl⟩

/-- C9: the read-only `_at` query variants leave the entire handle — document
(object tree and history) and any open transaction — unchanged: their
receiver is a shared borrow, so the post-state of each call is the pre-state. -/
theorem at_queries_leave_document_unchanged (s : AutoCommit) (obj : ExId) (p : AmProp)
    (heads : List ChangeHash) :
    (s.keys_atCall obj heads).2 = s
  ∧ (s.length_atCall obj heads).2 = s
  ∧ (s.text_atCall obj heads).2 = s
  ∧ (s.get_atCall obj p heads).2 = s
  ∧ (s.get_conflicts_atCall obj p heads).2 = s :=
  ⟨rfl, rfl, rfl, rfl, rfl⟩

/-- C1 counterexample: the claim that every read/query first commits the open
transaction is false. `keys` (like `get`, `get_conflicts`, `values`, `length`
and `text`) takes the handle by shared borrow and delegates straight to the
document: after an uncommitted `put`, calling `keys` leaves the transaction
open and its operation still pending, so the call does not execute on a
document with no open transaction. -/
theorem keys_does_not_close_transaction :
    (((AutoCommit.new.put 0 (AmProp.mapKey "title") (ScalarValue.str "todo")).keysCall 0).2).transaction
      ≠ none
  ∧ (((AutoCommit.new.put 0 (AmProp.mapKey "title") (ScalarValue.str "todo")).keysCall 0).2).pending_ops
      = 1
  ∧ (((AutoCommit.new.put 0 (AmProp.mapKey "title") (ScalarValue.str "todo")).getCall 0
        (AmProp.mapKey "title")).2).transaction ≠ none := by
  decide

/-- C1 amended: of the non-mutating operations, those taking the handle by
mutable borrow — `save`, `save_incremental`, `merge` (both handles),
`generate_sync_message`, `receive_sync_message`, `get_heads` and `set_actor`
— first commit any open transaction with default options and execute on the
closed document; the reads and queries (`keys`, `values`, `length`, `text`,
`get`, `get_conflicts`) take the handle by shared borrow, do not commit the
open transaction, and leave the handle exactly as it was. -/
theorem mut_boundary_ops_close_transaction (s o : AutoCommit) (a : ActorId)
    (st : SyncState) (m : SyncMessage) (obj : ExId) (p : AmProp) :
    (s.save).2.transaction = none
  ∧ (s.save).1 = ((s.ensure_transaction_closed).doc).save
  ∧ (s.save_incremental).2.transaction = none
  ∧ (s.merge o).2.1.transaction = none
  ∧ (s.merge o).2.2.transaction = none
  ∧ (s.generate_sync_message st).2.2.transaction = none
  ∧ (s.receive_sync_message st m).2.transaction = none
  ∧ (s.get_heads).2.transaction = none
  ∧ (s.get_heads).1 = ((s.ensure_transaction_closed).doc).get_heads
  ∧ (s.set_actor a).transaction = none
  ∧ (s.keysCall obj).2 = s
  ∧ (s.valuesCall obj).2 = s
  ∧ (s.lengthCall obj).2 = s
  ∧ (s.textCall obj).2 = s
  ∧ (s.getCall obj p).2 = s
  ∧ (s.get_conflictsCall obj p).2 = s := by
  obtain ⟨d, tx⟩ := s
  obtain ⟨d2, tx2⟩ := o
  cases tx <;> cases tx2 <;>
    exact ⟨rfl, rfl, rfl, rfl, rfl, rfl, rfl, rfl, rfl, rfl, rfl, rfl, rfl, rfl, rfl, rfl⟩

/-- Merging in either order yields histories with the same changes: each
merged history holds exactly the changes of the two inputs. -/
theorem mergeDoc_mem (x y : Automerge) (c : Change) :
    c ∈ (x.mergeDoc y).2.history ↔ c ∈ (y.mergeDoc x).2.history := by
  simp [Automerge.mergeDoc, List.mem_filter]
  tauto

/-- Merging in either order yields the same change set. -/
theorem mergeDoc_changeSet (x y : Automerge) :
    (x.mergeDoc y).2.changeSet = (y.mergeDoc x).2.changeSet := by
  ext c
  simp only [Automerge.changeSet, List.mem_toFinset]
  exact mergeDoc_mem x y c

/-- Merging in either order yields the same derived entry set. -/
theorem mergeDoc_entries (x y : Automerge) :
    (x.mergeDoc y).2.entries = (y.mergeDoc x).2.entries := by
  unfold Automerge.entries
  rw [mergeDoc_changeSet]

/-- C2: for any two handles, merging `b` into `a` and merging `a` into `b`
yield documents with identical observable state: the same changes are present
(internal history layout may differ in order), and every query of the
observable surface — keys, values, length, text content, winning value and
conflict set of every slot — agrees between the two results. -/
theorem merge_commutes_observable (a b : AutoCommit) :
    (∀ c : Change,
        c ∈ ((a.merge b).2.1).doc.history ↔ c ∈ ((b.merge a).2.1).doc.history)
  ∧ ((a.merge b).2.1).doc.entries = ((b.merge a).2.1).doc.entries
  ∧ (∀ obj, ((a.merge b).2.1).doc.keys obj = ((b.merge a).2.1).doc.keys obj)
  ∧ (∀ obj, ((a.merge b).2.1).doc.values obj = ((b.merge a).2.1).doc.values obj)
  ∧ (∀ obj, ((a.merge b).2.1).doc.length obj = ((b.merge a).2.1).doc.length obj)
  ∧ (∀ obj, ((a.merge b).2.1).doc.text obj = ((b.merge a).2.1).doc.text obj)
  ∧ (∀ obj p, ((a.merge b).2.1).doc.get obj p = ((b.merge a).2.1).doc.get obj p)
  ∧ (∀ obj p,
        ((a.merge b).2.1).doc.get_conflicts obj p
          = ((b.merge a).2.1).doc.get_conflicts obj p) := by
  have hx : ((a.merge b).2.1).doc
      = ((a.ensure_transaction_closed).doc.mergeDoc (b.ensure_transaction_closed).doc).2 := rfl
  have hy : ((b.merge a).2.1).doc
      = ((b.ensure_transaction_closed).doc.mergeDoc (a.ensure_transaction_closed).doc).2 := rfl
  have hent : ((a.merge b).2.1).doc.entries = ((b.merge a).2.1).doc.entries := by
    rw [hx, hy]
    exact mergeDoc_entries _ _
  refine ⟨?_, hent, ?_, ?_, ?_, ?_, ?_, ?_⟩
  · intro c
    rw [hx, hy]
    exact mergeDoc_mem _ _ c
  · intro obj
    simp only [Automerge.keys, hent]
  · intro obj
    simp only [Automerge.values, hent]
  · intro obj
    simp only [Automerge.length, hent]
  · intro obj
    simp only [Automerge.text, hent]
  · intro obj p
    simp only [Automerge.get, hent]
  · intro obj p
    simp only [Automerge.get_conflicts, hent]
